import Mathlib

/-!
Shallow embedding of `src/backend/server.py` (ParamparaSmritiAI backend).

Conventions of the embedding:
* MongoDB collections are lists of records; `insert_one` appends, `find_one`
  returns the first record matching the filter, `update_one` rewrites the
  first match, `find().limit(n)` is `mongoLimit`, `to_list(k)` is `List.take k`.
* `uuid.uuid4()` draws are modelled by a counter `nextId` in the system state;
  `datetime.now(timezone.utc)` is a natural-number clock `now`.
* Python `float` confidence/score constants carry no arithmetic in the source,
  so they are represented exactly as rationals (`0.8 = 4/5`, `0.7 = 7/10`).
* The LLM provider (`chat.send_message`) is a black box `String → Option String`
  (`none` models a raised provider exception); the stdlib JSON parser
  (`json.loads`) is a black box `String → Option Json`; the sentence-transformer
  embedding model is a black box `String → Option (List ℚ)` (`none` models the
  exception raised when the model is unavailable).
* Record fields whose Python value may be `None` are `Option`-valued; for
  Mongo documents produced by an upsert, fields that are absent from the
  stored document are also modelled as `none` (no claim distinguishes a JSON
  `null` value from an absent key).
-/

/-- JSON values, the possible results of the black-box `json.loads`. -/
inductive Json where
  | null : Json
  | bool (b : Bool) : Json
  | num (q : ℚ) : Json
  | str (s : String) : Json
  | arr (items : List Json) : Json
  | obj (fields : List (String × Json)) : Json

/-- Result of a request handler: a 200 payload or an `HTTPException`
with a status code and a detail message. -/
inductive HandlerResult (α : Type) where
  | ok (value : α) : HandlerResult α
  | err (status : Nat) (detail : String) : HandlerResult α
deriving DecidableEq, Repr

/-- `class CulturalDocument(BaseDocument)` from server.py, as stored by
`document.dict()`: the `BaseDocument` fields `id`, `created_at`, `updated_at`
plus the document fields.  `translation: Dict[str, str]` is an association
list. -/
structure CulturalDocument where
  id : String
  created_at : Nat
  updated_at : Nat
  title : String
  description : Option String
  script_type : Option String
  language : String
  original_text : Option String
  restored_text : Option String
  translation : List (String × String)
  region : Option String
  time_period : Option String
  restoration_confidence : Option ℚ
  embeddings : Option (List ℚ)
  tags : List String
deriving DecidableEq, Repr

/-- `class FolkSong(BaseDocument)` from server.py. -/
structure FolkSong where
  id : String
  created_at : Nat
  updated_at : Nat
  title : String
  performer : Option String
  region : String
  language : String
  transcription : Option String
  audio_path : Option String
  lyrics : Option String
  cultural_significance : Option String
  embeddings : Option (List ℚ)
deriving DecidableEq, Repr

/-- `class Story(BaseDocument)` from server.py.  `quiz_questions` entries are left
abstract (never constructed by the code). -/
structure Story where
  id : String
  created_at : Nat
  updated_at : Nat
  title : String
  content : String
  source_document_id : Option String
  story_type : String
  language : String
  audio_narration : Option String
  quiz_questions : Option (List String)
deriving DecidableEq, Repr

/-- A document stored in the `user_progress` collection.  Unlike the other
collections, `user_progress` documents are written on two paths: the lazy-read
path writes a full `UserProgress(BaseDocument).dict()`, while the
`award_badge` upsert writes only the filter field `user_id` plus the
`$addToSet`/`$inc` fields.  Every field a stored document may lack is
therefore `Option`-valued (`none` = key absent).  Mongo's internal `_id` is
not modelled. -/
structure UserProgressRecord where
  id : Option String
  created_at : Option Nat
  updated_at : Option Nat
  user_id : String
  badges : Option (List String)
  points : Option Int
  documents_explored : Option (List String)
  translations_contributed : Option Int
  stories_completed : Option Int
deriving DecidableEq, Repr

/-- The four MongoDB collections used by server.py. -/
structure DB where
  cultural_documents : List CulturalDocument
  folk_songs : List FolkSong
  stories : List Story
  user_progress : List UserProgressRecord
deriving DecidableEq, Repr

/-- Whole system state: the database, the set of files currently present in
the temporary upload directory, the uuid counter and the UTC clock. -/
structure Sys where
  db : DB
  files : List String
  nextId : Nat
  now : Nat
deriving DecidableEq, Repr

/-- A fresh identifier, modelling one draw of `uuid.uuid4()`. -/
def freshId (n : Nat) : String := "uuid-" ++ toString n

/-- `cursor.limit(n)` in MongoDB: `limit(0)` means no limit, a negative
argument behaves like its absolute value. -/
def mongoLimit (n : Int) (xs : List α) : List α :=
  if n = 0 then xs else xs.take n.natAbs

/-- `$addToSet`: append the value only if it is not already a member. -/
def mongoAddToSet (x : String) (xs : List String) : List String :=
  if x ∈ xs then xs else xs ++ [x]

/-- Rewrite the first list element satisfying `p` (Mongo `update_one` updates
a single — the first — matching document). -/
def updateFirst (p : α → Bool) (f : α → α) : List α → List α
  | [] => []
  | x :: xs => if p x then f x :: xs else x :: updateFirst p f xs

/-- Python `str.title()`: the first alphabetic character of every word is
uppercased, the following alphabetic characters are lowercased. -/
def pyTitleGo : Bool → List Char → List Char
  | _, [] => []
  | prevAlpha, c :: cs =>
    let c' := if c.isAlpha then (if prevAlpha then c.toLower else c.toUpper) else c
    c' :: pyTitleGo c.isAlpha cs

/-- Python `str.title()`. -/
def pyTitle (s : String) : String := String.mk (pyTitleGo false s.data)

/-- Python `x or default` on an optional string: `None` and the empty string
are falsy and give the default. -/
def pyOr (v : Option String) (dflt : String) : String :=
  match v with
  | some c => if c.isEmpty then dflt else c
  | none => dflt

/-- Rendering of an optional string inside a Python f-string: `None` prints
as `"None"`.  (Used for `doc.get('original_text', '')`: pydantic always
writes the key, so `.get` returns the stored value, which may be `None`.) -/
def pyShowOpt (v : Option String) : String := v.getD ("None")

/-- `class RestoreRequest(BaseModel)` from server.py. -/
structure RestoreRequest where
  text : String
  language : String
  context : Option String
deriving DecidableEq, Repr

/-- `class TranslateRequest(BaseModel)` from server.py. -/
structure TranslateRequest where
  text : String
  source_language : String
  target_language : String
deriving DecidableEq, Repr

/-- `class StoryRequest(BaseModel)` from server.py.  `story_type` is declared
as a plain `str`; pydantic imposes no constraint on its value. -/
structure StoryRequest where
  document_id : String
  story_type : String
  target_language : String
deriving DecidableEq, Repr

/-- FastAPI request validation for `POST /story/generate`: `StoryRequest`
declares `story_type: str` with no enum or validator, so every string value
passes validation and reaches the handler. -/
def storyRequestValid (_req : StoryRequest) : Bool := true

/-- `class SearchRequest(BaseModel)` from server.py. -/
structure SearchRequest where
  query : String
  search_type : String
  language : Option String
  limit : Int
deriving DecidableEq, Repr

/-- Stands for `str(e)` of the exception raised by a failed provider call.
The concrete text depends on the provider library; no claim depends on it. -/
def providerErrorMessage : String := "provider call raised"

/-- Stands for `str(e)` of the exception raised when `embedding_model` is
unavailable or `encode` fails.  No claim depends on the concrete text. -/
def embedErrorMessage : String := "embedding model raised"

/-- Stands for `str(e)` of the `UnboundLocalError` raised by
`chat.send_message(UserMessage(text=prompt))` when no `if` branch assigned
`prompt` (the text is Python-version dependent). -/
def unboundPromptMessage : String := "local variable referenced before assignment"

/-- Stands for `str(e)` of the `TypeError` raised by
`doc.get("original_text", "")[:200]` when the stored value is `None`. -/
def noneSliceMessage : String := "NoneType is not subscriptable"

/-- `restoration_prompt` built by `restore_text` (server.py lines 216-237).
Literal braces of the rendered f-string are written with `\x7b`/`\x7d`. -/
def restorationPrompt (req : RestoreRequest) : String :=
  "\n        As an expert in " ++ req.language ++
  " cultural heritage and ancient texts, please restore this potentially damaged or incomplete text:\n\n        Original Text: " ++
  req.text ++ "\n        Language: " ++ req.language ++ "\n        Context: " ++
  pyOr req.context ("Ancient manuscript or inscription") ++
  "\n\n        Instructions:\n        1. Identify missing or damaged portions\n        2. Restore using cultural and linguistic knowledge\n        3. Maintain authenticity and historical accuracy\n        4. Explain your restoration choices\n        5. Provide confidence score (0-1)\n\n        Return in JSON format:\n        \x7b\n            \"restored_text\": \"complete restored text\",\n            \"changes_made\": [\"list of specific changes\"],\n            \"confidence\": 0.85,\n            \"explanation\": \"detailed explanation of restoration process\"\n        \x7d\n        "

/-- `translation_prompt` built by `translate_text` (server.py lines 266-285). -/
def translationPrompt (req : TranslateRequest) : String :=
  "\n        As an expert translator specializing in Indian languages and cultural contexts, translate this text:\n\n        Text: " ++
  req.text ++ "\n        From: " ++ req.source_language ++ "\n        To: " ++
  req.target_language ++
  "\n\n        Instructions:\n        1. Maintain cultural nuances and context\n        2. Preserve religious/spiritual terminology appropriately\n        3. Keep historical references intact\n        4. Provide cultural notes if needed\n\n        Return in JSON format:\n        \x7b\n            \"translated_text\": \"translated content\",\n            \"cultural_notes\": \"any important cultural context\",\n            \"confidence\": 0.9\n        \x7d\n        "

/-- The structured fallback `restore_text` builds when `json.loads` fails
(server.py lines 244-250). -/
def restoreFallback (response : String) : Json :=
  Json.obj [("restored_text", Json.str response),
            ("changes_made", Json.arr [Json.str ("AI restoration applied")]),
            ("confidence", Json.num (7/10)),
            ("explanation", Json.str ("Text restored using AI cultural knowledge"))]

/-- The structured fallback `translate_text` builds when `json.loads` fails
(server.py lines 291-296). -/
def translateFallback (response : String) : Json :=
  Json.obj [("translated_text", Json.str response),
            ("cultural_notes", Json.str ("AI translation with cultural awareness")),
            ("confidence", Json.num (4/5))]

/-- Output of `restore_text` / `translate_text`: the handler result plus the
list of prompts actually sent to the provider. -/
structure LlmOut where
  result : HandlerResult Json
  calls : List String

/-- `POST /restore` (server.py lines 209-256).  `apiKey` models whether
`EMERGENT_LLM_KEY` is set (its absence raises an `HTTPException(500)` inside
the `try`, which the blanket `except` re-raises with a wrapped detail).
`provider` is the black-box LLM, `parse` the black-box `json.loads`. -/
def restore_text (apiKey : Bool) (provider : String → Option String)
    (parse : String → Option Json) (req : RestoreRequest) : LlmOut :=
  if apiKey then
    let p := restorationPrompt req
    match provider p with
    | none => ⟨.err 500 ("Text restoration failed: " ++ providerErrorMessage), [p]⟩
    | some response =>
      match parse response with
      | some result => ⟨.ok result, [p]⟩
      | none => ⟨.ok (restoreFallback response), [p]⟩
  else ⟨.err 500 "Text restoration failed: 500: EMERGENT_LLM_KEY not found", []⟩

/-- `POST /translate` (server.py lines 259-302). -/
def translate_text (apiKey : Bool) (provider : String → Option String)
    (parse : String → Option Json) (req : TranslateRequest) : LlmOut :=
  if apiKey then
    let p := translationPrompt req
    match provider p with
    | none => ⟨.err 500 ("Translation failed: " ++ providerErrorMessage), [p]⟩
    | some response =>
      match parse response with
      | some result => ⟨.ok result, [p]⟩
      | none => ⟨.ok (translateFallback response), [p]⟩
  else ⟨.err 500 "Translation failed: 500: EMERGENT_LLM_KEY not found", []⟩

/-- Directory used by `save_upload_file` (`tempfile.gettempdir()/parampara_uploads`). -/
def uploadsDir : String := "/tmp/parampara_uploads"

/-- `save_upload_file` (server.py lines 128-139): stages the upload under
`temp_dir / f"{uuid4()}_{filename}"`, records the file as existing, and
returns the path. -/
def save_upload_file (filename : String) (s : Sys) : Sys × String :=
  let path := uploadsDir ++ "/" ++ freshId s.nextId ++ "_" ++ filename
  ({ s with files := s.files ++ [path], nextId := s.nextId + 1 }, path)

/-- The simulated OCR output of `upload_document_ocr` (server.py line 173). -/
def ocrExtractedText (filename : String) : String :=
  "[OCR Extracted Text from " ++ filename ++ "]\nसंस्कृत श्लोक या प्राचीन पाठ यहाँ होगा..."

/-- The simulated transcription of `upload_folk_song` (server.py line 318). -/
def songTranscription (filename : String) : String :=
  "[Folk Song Transcription for " ++ filename ++
  "]\nगीत के बोल यहाँ होंगे... (Transcribed lyrics would appear here)"

/-- Multipart form of `POST /ocr/upload` (file plus `script_type`, `language`,
with the FastAPI defaults already applied). -/
structure OcrForm where
  filename : String
  script_type : String
  language : String
deriving DecidableEq, Repr

/-- Response body of a successful `POST /ocr/upload`. -/
structure OcrResponse where
  document_id : String
  extracted_text : String
  script_type : String
  language : String
  status : String
deriving DecidableEq, Repr

/-- `POST /ocr/upload` (server.py lines 160-206).  The upload is staged, the
stubbed OCR text is produced, a `CulturalDocument` is built (drawing an id and
timestamps), embeddings are computed, the record is inserted and only then is
the temp file removed.  If the embedding step raises (`embed _ = none`), the
blanket `except` returns a 500 and the staged file is never removed. -/
def upload_document_ocr (embed : String → Option (List ℚ)) (form : OcrForm)
    (s : Sys) : Sys × HandlerResult OcrResponse :=
  let staged := save_upload_file form.filename s
  let s1 := staged.1
  let extracted := ocrExtractedText form.filename
  let document : CulturalDocument :=
    { id := freshId s1.nextId
      created_at := s1.now
      updated_at := s1.now
      title := form.filename
      description := none
      script_type := some form.script_type
      language := form.language
      original_text := some extracted
      restored_text := none
      translation := []
      region := some ("Unknown")
      time_period := none
      restoration_confidence := none
      embeddings := none
      tags := ["ocr", form.script_type, form.language] }
  let s2 := { s1 with nextId := s1.nextId + 1 }
  match embed extracted with
  | none => (s2, .err 500 ("OCR processing failed: " ++ embedErrorMessage))
  | some em =>
    let document := { document with embeddings := some em }
    let s3 := { s2 with db :=
      { s2.db with cultural_documents := s2.db.cultural_documents ++ [document] } }
    let s4 := { s3 with files := s3.files.erase staged.2 }
    (s4, .ok { document_id := document.id
               extracted_text := extracted
               script_type := form.script_type
               language := form.language
               status := "success" })

/-- Multipart form of `POST /speech/upload` (FastAPI defaults applied:
`performer` and `region` default to `""`, `language` to `"hindi"`). -/
structure SpeechForm where
  filename : String
  performer : String
  region : String
  language : String
deriving DecidableEq, Repr

/-- Response body of a successful `POST /speech/upload`. -/
structure SpeechResponse where
  song_id : String
  transcription : String
  performer : String
  region : String
  status : String
deriving DecidableEq, Repr

/-- `POST /speech/upload` (server.py lines 305-348).  The staged audio file is
kept as the song's `audio_path`; no path of this handler ever deletes it. -/
def upload_folk_song (embed : String → Option (List ℚ)) (form : SpeechForm)
    (s : Sys) : Sys × HandlerResult SpeechResponse :=
  let staged := save_upload_file form.filename s
  let s1 := staged.1
  let transcription := songTranscription form.filename
  let folk_song : FolkSong :=
    { id := freshId s1.nextId
      created_at := s1.now
      updated_at := s1.now
      title := form.filename
      performer := some form.performer
      region := form.region
      language := form.language
      transcription := some transcription
      audio_path := some staged.2
      lyrics := none
      cultural_significance := none
      embeddings := none }
  let s2 := { s1 with nextId := s1.nextId + 1 }
  match embed transcription with
  | none => (s2, .err 500 ("Speech processing failed: " ++ embedErrorMessage))
  | some em =>
    let folk_song := { folk_song with embeddings := some em }
    let s3 := { s2 with db :=
      { s2.db with folk_songs := s2.db.folk_songs ++ [folk_song] } }
    (s3, .ok { song_id := folk_song.id
               transcription := transcription
               performer := form.performer
               region := form.region
               status := "success" })

/-- The `summary` prompt of `generate_story` (server.py lines 364-372). -/
def summaryPrompt (doc : CulturalDocument) (req : StoryRequest) : String :=
  "\n            Create an engaging summary of this cultural text in " ++
  req.target_language ++ ":\n            \n            Title: " ++ doc.title ++
  "\n            Text: " ++ pyShowOpt doc.original_text ++
  "\n            Language: " ++ doc.language ++
  "\n            \n            Make it accessible and interesting while preserving cultural authenticity.\n            "

/-- The `interactive` prompt of `generate_story` (server.py lines 374-385). -/
def interactivePrompt (doc : CulturalDocument) : String :=
  "\n            Create an interactive story experience based on this cultural text:\n            \n            Title: " ++
  doc.title ++ "\n            Text: " ++ pyShowOpt doc.original_text ++
  "\n            \n            Include:\n            1. Narrative sections with choices\n            2. Cultural context explanations\n            3. Interactive elements for learning\n            4. Return as structured JSON with story segments and choices\n            "

/-- The `quiz` prompt of `generate_story` (server.py lines 387-400). -/
def quizPrompt (doc : CulturalDocument) : String :=
  "\n            Create educational quiz questions based on this cultural text:\n            \n            Title: " ++
  doc.title ++ "\n            Text: " ++ pyShowOpt doc.original_text ++
  "\n            \n            Generate 5-10 questions covering:\n            1. Cultural significance\n            2. Historical context\n            3. Language elements\n            4. Regional importance\n            \n            Return as JSON array with questions, options, and correct answers.\n            "

/-- The `if/elif/elif` prompt dispatch of `generate_story` (lines 363-400):
there is no `else` branch, so an unrecognized `story_type` leaves the local
variable `prompt` unassigned (`none`). -/
def storyPromptFor (doc : CulturalDocument) (req : StoryRequest) : Option String :=
  if req.story_type = "summary" then some (summaryPrompt doc req)
  else if req.story_type = "interactive" then some (interactivePrompt doc)
  else if req.story_type = "quiz" then some (quizPrompt doc)
  else none

/-- Response body of a successful `POST /story/generate`. -/
structure StoryResponse where
  story_id : String
  content : String
  story_type : String
  source_document : String
deriving DecidableEq, Repr

/-- Output of `generate_story`: final state, prompts sent to the provider,
handler result. -/
structure StoryOut where
  sys : Sys
  calls : List String
  result : HandlerResult StoryResponse
deriving DecidableEq, Repr

/-- `POST /story/generate` (server.py lines 351-426).  The whole body runs in
a `try` whose `except Exception` converts *every* exception — including the
explicitly raised `HTTPException(404, "Document not found")` — into
`HTTPException(500, f"Story generation failed: {str(e)}")`; `str` of a
starlette `HTTPException` renders as `"404: Document not found"`.  An
unassigned `prompt` raises `UnboundLocalError` while building the
`send_message` argument, so no provider message is sent on that path. -/
def generate_story (apiKey : Bool) (provider : String → Option String)
    (req : StoryRequest) (s : Sys) : StoryOut :=
  match s.db.cultural_documents.find? (fun d => d.id == req.document_id) with
  | none => ⟨s, [], .err 500 "Story generation failed: 404: Document not found"⟩
  | some doc =>
    if apiKey then
      match storyPromptFor doc req with
      | none => ⟨s, [], .err 500 ("Story generation failed: " ++ unboundPromptMessage)⟩
      | some prompt =>
        match provider prompt with
        | none => ⟨s, [prompt], .err 500 ("Story generation failed: " ++ providerErrorMessage)⟩
        | some response =>
          let story : Story :=
            { id := freshId s.nextId
              created_at := s.now
              updated_at := s.now
              title := doc.title ++ " - " ++ pyTitle req.story_type
              content := response
              source_document_id := some req.document_id
              story_type := req.story_type
              language := req.target_language
              audio_narration := none
              quiz_questions := none }
          let s' := { s with nextId := s.nextId + 1, db :=
            { s.db with stories := s.db.stories ++ [story] } }
          ⟨s', [prompt], .ok { story_id := story.id
                               content := response
                               story_type := req.story_type
                               source_document := doc.title }⟩
    else ⟨s, [], .err 500 "Story generation failed: 500: EMERGENT_LLM_KEY not found"⟩

/-- Token of the PCRE fragment this embedding models: queries built from
literal characters and the metacharacter `.`.  The backend forwards the raw
query string as a MongoDB `$regex` pattern; modelling the full PCRE grammar is
unnecessary because the theorems below only ever instantiate the pattern with
strings in this fragment. -/
inductive RTok where
  | lit (c : Char) : RTok
  | dot : RTok
deriving DecidableEq, Repr

/-- Reads a query string as a regex of the modelled fragment: `.` becomes the
any-character token, every other character a literal. -/
def readRegex (s : String) : List RTok :=
  s.data.map (fun c => if c == '.' then RTok.dot else RTok.lit c)

/-- One-token match under the `i` option: literals compare case-folded,
`.` matches any character except a newline. -/
def tokMatch (t : RTok) (c : Char) : Bool :=
  match t with
  | .dot => c != '\n'
  | .lit l => l.toLower == c.toLower

/-- The token list matches at the front of the character list. -/
def toksMatchHere : List RTok → List Char → Bool
  | [], _ => true
  | _ :: _, [] => false
  | t :: ts, c :: cs => tokMatch t c && toksMatchHere ts cs

/-- MongoDB `{"$regex": pattern, "$options": "i"}` on a string field: the
pattern matches somewhere inside the target. -/
def regexSearch (pat target : String) : Bool :=
  target.data.tails.any (toksMatchHere (readRegex pat))

/-- A `$regex` condition on an optional field: a `None`/absent value never
matches. -/
def regexMatchOpt (pat : String) : Option String → Bool
  | none => false
  | some s => regexSearch pat s

/-- The `$or` filter of the keyword branch of `search_content` (server.py
lines 472-479): title, original text or description matches the query regex. -/
def keywordPred (q : String) (d : CulturalDocument) : Bool :=
  regexSearch q d.title || regexMatchOpt q d.original_text ||
    regexMatchOpt q d.description

/-- Characters with a special meaning in a PCRE pattern. -/
def regexMetaChars : List Char :=
  ['.', '^', '$', '*', '+', '?', '(', ')', '[', ']', '|', '\\',
   Char.ofNat 123, Char.ofNat 125]

/-- `isRegexMeta c` holds when `c` is a PCRE metacharacter. -/
def isRegexMeta (c : Char) : Bool := c ∈ regexMetaChars

/-- The spec's reading of keyword search ("case-insensitively contains the
query substring"): the first list occurs contiguously inside the second. -/
def atFront : List Char → List Char → Bool
  | [], _ => true
  | _ :: _, [] => false
  | a :: as, b :: bs => a == b && atFront as bs

/-- Modelled from the spec: `/search` with `search_type="keyword"` "returns
only records whose title/text/description case-insensitively contains the
query substring".  This is case-insensitive substring containment, to be
compared with the `$regex` behaviour of the code. -/
def specContainsCI (needle hay : String) : Bool :=
  (hay.data.map Char.toLower).tails.any (atFront (needle.data.map Char.toLower))

/-- Case-insensitive substring containment on an optional field. -/
def specFieldContains (needle : String) : Option String → Bool
  | none => false
  | some s => specContainsCI needle s

/-- Modelled from the spec: a record matches the keyword query when its
title, original text or description case-insensitively contains the query as
a substring. -/
def specKeywordMatch (q : String) (d : CulturalDocument) : Bool :=
  specContainsCI q d.title || specFieldContains q d.original_text ||
    specFieldContains q d.description

/-- Stable insertion step for Python's `sorted(key=..., reverse=True)`: the
new (later) element goes after every already-placed element whose key is at
least as large. -/
def insertDesc (key : α → ℚ) (a : α) : List α → List α
  | [] => [a]
  | b :: bs => if key a ≤ key b then b :: insertDesc key a bs else a :: b :: bs

/-- Python `sorted(xs, key=key, reverse=True)`: a stable sort by key in
descending order (ties keep their original relative order). -/
def sortDesc (key : α → ℚ) (xs : List α) : List α :=
  xs.foldl (fun acc a => insertDesc key a acc) []

/-- One entry of the `results` list of `POST /search`.  Keys a branch does
not set are `none`; `content` is `Option` because the semantic branch copies
`doc.get("original_text", "")`, which is the stored value and may be a JSON
null. -/
structure SearchItem where
  type : String
  id : String
  title : String
  content : Option String
  language : Option String
  region : Option String
  performer : Option String
  score : Option ℚ
deriving DecidableEq, Repr

/-- The semantic-branch result entry for a cultural document (server.py
lines 446-455): constant placeholder score `0.8`. -/
def docSearchItem (d : CulturalDocument) : SearchItem :=
  { type := "document", id := d.id, title := d.title,
    content := d.original_text, language := some d.language,
    region := d.region, performer := none, score := some (4/5) }

/-- The semantic-branch result entry for a folk song (server.py lines
457-466): constant placeholder score `0.7`. -/
def songSearchItem (f : FolkSong) : SearchItem :=
  { type := "folk_song", id := f.id, title := f.title,
    content := f.transcription, language := none, region := some f.region,
    performer := f.performer, score := some (7/10) }

/-- The keyword-branch result entry (server.py lines 481-488), given the
document's original text `t`: the content is truncated to 200 characters with
an unconditional `"..."` suffix. -/
def kwSearchItem (d : CulturalDocument) (t : String) : SearchItem :=
  { type := "document", id := d.id, title := d.title,
    content := some (t.take 200 ++ "..."), language := some d.language,
    region := d.region, performer := none, score := none }

/-- Builds the keyword-branch result list.  Python's
`doc.get("original_text", "")[:200]` raises a `TypeError` at the first
document whose stored `original_text` is `None` (`none` result); pydantic
always writes the key, so the `.get` default is dead. -/
def kwItems : List CulturalDocument → Option (List SearchItem)
  | [] => some []
  | d :: ds =>
    match d.original_text with
    | none => none
    | some t => (kwItems ds).map (fun rest => kwSearchItem d t :: rest)

/-- Response body of a successful `POST /search`. -/
structure SearchResponse where
  query : String
  search_type : String
  results : List SearchItem
  total_found : Nat
deriving DecidableEq, Repr

/-- `POST /search` (server.py lines 429-499).  The semantic branch computes
the query embedding (a failure there is a 500), fetches up to `limit` records
from each collection with no filter, tags them with the constant scores and
sorts by score; the query embedding is never consulted again.  Every other
`search_type` takes the keyword branch, which filters documents by the
query-as-regex and truncates each content to 200 characters. -/
def search_content (embed : String → Option (List ℚ)) (req : SearchRequest)
    (s : Sys) : HandlerResult SearchResponse :=
  if req.search_type == "semantic" then
    match embed req.query with
    | none => .err 500 ("Search failed: " ++ embedErrorMessage)
    | some _query_embedding =>
      let documents := mongoLimit req.limit s.db.cultural_documents
      let folk_songs := mongoLimit req.limit s.db.folk_songs
      let all_content := documents.map docSearchItem ++ folk_songs.map songSearchItem
      let results := sortDesc (fun it => it.score.getD 0) all_content
      .ok { query := req.query, search_type := req.search_type,
            results := results, total_found := results.length }
  else
    let documents := mongoLimit req.limit
      (s.db.cultural_documents.filter (keywordPred req.query))
    match kwItems documents with
    | none => .err 500 ("Search failed: " ++ noneSliceMessage)
    | some results =>
      .ok { query := req.query, search_type := req.search_type,
            results := results, total_found := results.length }

/-- `GET /user/{user_id}/progress` (server.py lines 502-511): returns the
stored record, or lazily creates a zero-valued `UserProgress` — with id and
timestamps — when none exists. -/
def get_user_progress (user_id : String) (s : Sys) : Sys × UserProgressRecord :=
  match s.db.user_progress.find? (fun p => p.user_id == user_id) with
  | some progress => (s, progress)
  | none =>
    let new_progress : UserProgressRecord :=
      { id := some (freshId s.nextId)
        created_at := some s.now
        updated_at := some s.now
        user_id := user_id
        badges := some []
        points := some 0
        documents_explored := some []
        translations_contributed := some 0
        stories_completed := some 0 }
    ({ s with nextId := s.nextId + 1, db :=
        { s.db with user_progress := s.db.user_progress ++ [new_progress] } },
     new_progress)

/-- Response body of `POST /user/{user_id}/badge/{badge_name}`. -/
structure AwardResponse where
  message : String
  points : Int
deriving DecidableEq, Repr

/-- `POST /user/{user_id}/badge/{badge_name}` (server.py lines 513-521):
`update_one({"user_id": u}, {"$addToSet": {"badges": b}, "$inc": {"points": 10}},
upsert=True)`.  When a record matches, its first match gets the badge added
as to a set and 10 points; when none matches, Mongo creates a document
holding only the filter field and the two updated fields.  The response body
always reports the literal increment `10`. -/
def award_badge (user_id badge_name : String) (s : Sys) : Sys × AwardResponse :=
  let ups := s.db.user_progress
  let ups' :=
    if (ups.find? (fun p => p.user_id == user_id)).isSome then
      updateFirst (fun p => p.user_id == user_id)
        (fun p => { p with
          badges := some (mongoAddToSet badge_name (p.badges.getD []))
          points := some (p.points.getD 0 + 10) }) ups
    else
      ups ++ [{ id := none, created_at := none, updated_at := none,
                user_id := user_id, badges := some [badge_name],
                points := some 10, documents_explored := none,
                translations_contributed := none, stories_completed := none }]
  ({ s with db := { s.db with user_progress := ups' } },
   { message := "Badge '" ++ badge_name ++ "' awarded!", points := 10 })

/-- `GET /documents` (server.py lines 524-528):
`db.cultural_documents.find({}).to_list(100)` — at most the first 100
documents of the collection. -/
def get_documents (s : Sys) : List CulturalDocument :=
  s.db.cultural_documents.take 100

/-- `GET /folk-songs` (server.py lines 530-534). -/
def get_folk_songs (s : Sys) : List FolkSong :=
  s.db.folk_songs.take 100

/-- Points of the first stored progress record for a user (`0` when the
record or its `points` field is absent, matching `$inc` semantics). -/
def userPoints (s : Sys) (u : String) : Int :=
  match s.db.user_progress.find? (fun p => p.user_id == u) with
  | some p => p.points.getD 0
  | none => 0

/-- Badges of the first stored progress record for a user. -/
def userBadges (s : Sys) (u : String) : List String :=
  match s.db.user_progress.find? (fun p => p.user_id == u) with
  | some p => p.badges.getD []
  | none => []

/-- A concrete stored cultural document used by the concrete instances below. -/
def sampleDoc : CulturalDocument :=
  { id := "doc-1", created_at := 0, updated_at := 0, title := "abc",
    description := none, script_type := some ("devanagari"), language := "hindi",
    original_text := some ("xyz"), restored_text := none, translation := [],
    region := some ("Unknown"), time_period := none,
    restoration_confidence := none, embeddings := none, tags := [] }

/-- A concrete stored folk song used by the concrete instances below. -/
def sampleSong : FolkSong :=
  { id := "song-1", created_at := 0, updated_at := 0, title := "geet",
    performer := some (""), region := "Rajasthan", language := "hindi",
    transcription := some ("lyrics here"), audio_path := none, lyrics := none,
    cultural_significance := none, embeddings := none }

/-- The empty system state. -/
def sysEmpty : Sys := ⟨⟨[], [], [], []⟩, [], 0, 0⟩

/-- A state holding one document and one folk song. -/
def sys1 : Sys := ⟨⟨[sampleDoc], [sampleSong], [], []⟩, [], 0, 0⟩

/-- A state whose `cultural_documents` collection already holds 100 records. -/
def sys100 : Sys := ⟨⟨List.replicate 100 sampleDoc, [], [], []⟩, [], 0, 0⟩

theorem any_congr_of_eq {l : List α} {p q : α → Bool}
    (h : ∀ x ∈ l, p x = q x) : l.any p = l.any q := by
  induction l with
  | nil => rfl
  | cons x xs ih =>
    simp only [List.any_cons, h x (by simp)]
    rw [ih (fun y hy => h y (by simp [hy]))]

theorem tails_map (f : α → α) (l : List α) :
    (l.map f).tails = l.tails.map (List.map f) := by
  induction l with
  | nil => rfl
  | cons x xs ih => simp [List.tails_cons, ih]

theorem insertDesc_of_le (key : α → ℚ) (a : α) (acc : List α)
    (h : ∀ b ∈ acc, key a ≤ key b) : insertDesc key a acc = acc ++ [a] := by
  induction acc with
  | nil => rfl
  | cons b bs ih =>
    simp only [insertDesc, if_pos (h b (by simp)), List.cons_append]
    rw [ih (fun c hc => h c (by simp [hc]))]

theorem foldl_insertDesc_sorted (key : α → ℚ) (xs : List α) :
    ∀ acc : List α, xs.Pairwise (fun a b => key b ≤ key a) →
      (∀ a ∈ xs, ∀ b ∈ acc, key a ≤ key b) →
      xs.foldl (fun acc a => insertDesc key a acc) acc = acc ++ xs := by
  induction xs with
  | nil => intro acc _ _; simp
  | cons x xs ih =>
    intro acc hsorted hcross
    have hx : insertDesc key x acc = acc ++ [x] :=
      insertDesc_of_le key x acc (hcross x (by simp))
    have hpair := (List.pairwise_cons.mp hsorted)
    simp only [List.foldl_cons, hx]
    rw [ih (acc ++ [x]) hpair.2]
    · simp
    · intro a ha b hb
      rcases List.mem_append.mp hb with hb | hb
      · exact hcross a (by simp [ha]) b hb
      · rw [List.mem_singleton.mp hb]
        exact hpair.1 a ha

theorem sortDesc_of_sorted (key : α → ℚ) (xs : List α)
    (h : xs.Pairwise (fun a b => key b ≤ key a)) : sortDesc key xs = xs := by
  have := foldl_insertDesc_sorted key xs [] h (by intro a _ b hb; cases hb)
  simpa [sortDesc] using this

theorem find?_updateFirst (p : α → Bool) (f : α → α) (l : List α)
    (hp : ∀ x, p x = true → p (f x) = true) :
    (updateFirst p f l).find? p = (l.find? p).map f := by
  induction l with
  | nil => rfl
  | cons x xs ih =>
    by_cases hx : p x = true
    · simp only [updateFirst, if_pos hx]
      rw [List.find?_cons_of_pos _ (hp x hx), List.find?_cons_of_pos _ hx]
      rfl
    · simp only [updateFirst, if_neg hx]
      rw [List.find?_cons_of_neg _ hx, List.find?_cons_of_neg _ hx, ih]

theorem kwItems_mem (l : List CulturalDocument) (out : List SearchItem)
    (h : kwItems l = some out) :
    ∀ it ∈ out, ∃ d ∈ l, ∃ t, d.original_text = some t ∧ it = kwSearchItem d t := by
  induction l generalizing out with
  | nil =>
    simp only [kwItems, Option.some.injEq] at h
    subst h; intro it hit; cases hit
  | cons d ds ih =>
    cases hdt : d.original_text with
    | none => simp [kwItems, hdt] at h
    | some t =>
      simp only [kwItems, hdt] at h
      cases hrest : kwItems ds with
      | none => rw [hrest] at h; cases h
      | some rest =>
        rw [hrest] at h
        simp only [Option.map_some', Option.some.injEq] at h
        subst h
        intro it hit
        rcases List.mem_cons.mp hit with hit | hit
        · exact ⟨d, by simp, t, hdt, hit⟩
        · rcases ih rest hrest it hit with ⟨d', hd', t', ht', hit'⟩
          exact ⟨d', by simp [hd'], t', ht', hit'⟩

theorem readRegex_no_meta (s : String)
    (h : ∀ c ∈ s.data, isRegexMeta c = false) :
    readRegex s = s.data.map RTok.lit := by
  apply List.map_congr_left
  intro c hc
  have hdot : ¬(c == '.') = true := by
    intro hcdot
    have : isRegexMeta c = true := by
      simp only [isRegexMeta, regexMetaChars]
      have := eq_of_beq hcdot
      subst this
      simp
    rw [h c hc] at this; cases this
  simp [hdot]

theorem toksMatchHere_lit (p : List Char) :
    ∀ cs : List Char,
      toksMatchHere (p.map RTok.lit) cs =
        atFront (p.map Char.toLower) (cs.map Char.toLower) := by
  induction p with
  | nil => intro cs; rfl
  | cons a as ih =>
    intro cs
    cases cs with
    | nil => rfl
    | cons c cs' => simp [toksMatchHere, tokMatch, atFront, ih cs']

theorem regexSearch_eq_specContains (q t : String)
    (h : ∀ c ∈ q.data, isRegexMeta c = false) :
    regexSearch q t = specContainsCI q t := by
  unfold regexSearch specContainsCI
  rw [readRegex_no_meta q h]
  have step1 : t.data.tails.any (toksMatchHere (q.data.map RTok.lit)) =
      t.data.tails.any
        (fun suf => atFront (q.data.map Char.toLower) (suf.map Char.toLower)) :=
    any_congr_of_eq (fun suf _ => toksMatchHere_lit q.data suf)
  rw [step1, tails_map Char.toLower t.data, List.any_map]
  rfl

theorem keywordPred_eq_spec (q : String)
    (h : ∀ c ∈ q.data, isRegexMeta c = false) (d : CulturalDocument) :
    keywordPred q d = specKeywordMatch q d := by
  unfold keywordPred specKeywordMatch
  rw [regexSearch_eq_specContains q d.title h]
  have hopt : ∀ v : Option String, regexMatchOpt q v = specFieldContains q v := by
    intro v
    cases v with
    | none => rfl
    | some s => simp [regexMatchOpt, specFieldContains,
        regexSearch_eq_specContains q s h]
  rw [hopt d.original_text, hopt d.description]

theorem mem_mongoLimit {n : Int} {xs : List α} {x : α}
    (h : x ∈ mongoLimit n xs) : x ∈ xs := by
  unfold mongoLimit at h
  by_cases hn : n = 0
  · rwa [if_pos hn] at h
  · rw [if_neg hn] at h
    exact List.take_subset _ _ h

theorem mem_mongoAddToSet (x b : String) (l : List String) :
    x ∈ mongoAddToSet b l ↔ x ∈ l ∨ x = b := by
  unfold mongoAddToSet
  by_cases hb : b ∈ l
  · rw [if_pos hb]
    constructor
    · exact fun h => Or.inl h
    · rintro (h | rfl)
      · exact h
      · exact hb
  · rw [if_neg hb]
    simp

/-- C1: for `POST /restore` and `POST /translate`, when the provider call
succeeds but its text is not parseable JSON, the handler returns a 200 payload
whose primary content field is the raw provider text and whose remaining
fields are the fixed placeholders (`confidence` 0.7 and `changes_made`
`["AI restoration applied"]` for restore, `confidence` 0.8 for translate). -/
theorem restore_translate_json_fallback
    (providerR providerT : String → Option String) (parse : String → Option Json)
    (reqR : RestoreRequest) (reqT : TranslateRequest) (respR respT : String)
    (hR : providerR (restorationPrompt reqR) = some respR)
    (hT : providerT (translationPrompt reqT) = some respT)
    (hpR : parse respR = none) (hpT : parse respT = none) :
    (restore_text true providerR parse reqR).result =
      .ok (Json.obj
        [("restored_text", Json.str respR),
         ("changes_made", Json.arr [Json.str ("AI restoration applied")]),
         ("confidence", Json.num (7/10)),
         ("explanation", Json.str ("Text restored using AI cultural knowledge"))]) ∧
    (translate_text true providerT parse reqT).result =
      .ok (Json.obj
        [("translated_text", Json.str respT),
         ("cultural_notes", Json.str ("AI translation with cultural awareness")),
         ("confidence", Json.num (4/5))]) := by
  constructor
  · simp [restore_text, hR, hpR, restoreFallback]
  · simp [translate_text, hT, hpT, translateFallback]

/-- C1 witness: concrete non-JSON provider output on both endpoints. -/
theorem restore_translate_json_fallback_witness :
    (restore_text true (fun _ => some ("not json")) (fun _ => none)
        ⟨"देवो", "hindi", none⟩).result =
      .ok (Json.obj
        [("restored_text", Json.str ("not json")),
         ("changes_made", Json.arr [Json.str ("AI restoration applied")]),
         ("confidence", Json.num (7/10)),
         ("explanation", Json.str ("Text restored using AI cultural knowledge"))]) ∧
    (translate_text true (fun _ => some ("not json")) (fun _ => none)
        ⟨"देवो", "hindi", "english"⟩).result =
      .ok (Json.obj
        [("translated_text", Json.str ("not json")),
         ("cultural_notes", Json.str ("AI translation with cultural awareness")),
         ("confidence", Json.num (4/5))]) :=
  restore_translate_json_fallback (fun _ => some ("not json")) (fun _ => some ("not json"))
    (fun _ => none) ⟨"देवो", "hindi", none⟩ ⟨"देवो", "hindi", "english"⟩
    "not json" "not json" rfl rfl rfl rfl

/-- C2: a `POST /story/generate` whose `document_id` matches no stored
document makes no provider call and writes nothing (the returned state is the
input state), but — contrary to the claim — the response status is 500, not
404: the explicitly raised `HTTPException(404, "Document not found")` is
caught by the handler's blanket `except Exception` and re-raised as
`HTTPException(500, "Story generation failed: 404: Document not found")`.
On the empty store every `document_id` is unknown, so the statement is
quantified over the whole request and provider. -/
theorem story_generate_unknown_doc_eval :
    ∀ (provider : String → Option String) (req : StoryRequest),
      generate_story true provider req sysEmpty =
        ⟨sysEmpty, [], .err 500 "Story generation failed: 404: Document not found"⟩ :=
  fun _ _ => rfl

/-- C3 counterexample: the unrecognized `story_type` `"poem"` passes request
validation (`story_type` is an unconstrained `str`) and the handler answers
with a generic 500 internal error — the `UnboundLocalError` of the never
assigned `prompt`, wrapped by the blanket `except` — not with a validation
error. -/
theorem story_type_unrecognized_counterexample :
    storyRequestValid ⟨"doc-1", "poem", "english"⟩ = true ∧
    generate_story true (fun _ => some ("x")) ⟨"doc-1", "poem", "english"⟩ sys1 =
      ⟨sys1, [], .err 500 ("Story generation failed: " ++ unboundPromptMessage)⟩ :=
  ⟨rfl, rfl⟩

/-- C3 (amended): a `POST /story/generate` whose `story_type` is none of
`summary`, `interactive`, `quiz` passes request validation and is then
rejected inside the handler with a generic 500 internal error (the prompt
variable is never assigned), before any provider message is sent and without
writing anything; the `story_type` is never silently defaulted to one of the
three templates. -/
theorem story_type_unrecognized_amended
    (prov : String → Option String) (req : StoryRequest) (s : Sys)
    (doc : CulturalDocument)
    (hdoc : s.db.cultural_documents.find? (fun d => d.id == req.document_id) = some doc)
    (hst : req.story_type ∉ (["summary", "interactive", "quiz"] : List String)) :
    storyRequestValid req = true ∧
    generate_story true prov req s =
      ⟨s, [], .err 500 ("Story generation failed: " ++ unboundPromptMessage)⟩ := by
  refine ⟨rfl, ?_⟩
  have h1 : req.story_type ≠ "summary" := fun h => hst (by simp [h])
  have h2 : req.story_type ≠ "interactive" := fun h => hst (by simp [h])
  have h3 : req.story_type ≠ "quiz" := fun h => hst (by simp [h])
  have hp : storyPromptFor doc req = none := by
    unfold storyPromptFor
    rw [if_neg h1, if_neg h2, if_neg h3]
  simp [generate_story, hdoc, hp]

/-- C3 witness for the amended theorem, at `story_type = "poem"`. -/
theorem story_type_unrecognized_amended_witness :
    storyRequestValid ⟨"doc-1", "poem", "marathi"⟩ = true ∧
    generate_story true (fun _ => some ("y")) ⟨"doc-1", "poem", "marathi"⟩ sys1 =
      ⟨sys1, [], .err 500 ("Story generation failed: " ++ unboundPromptMessage)⟩ :=
  story_type_unrecognized_amended (fun _ => some ("y")) ⟨"doc-1", "poem", "marathi"⟩
    sys1 sampleDoc rfl (by decide)

/-- C8: code-bug evaluation.  A badge award for a user with no stored
progress record upserts a document holding only `user_id`, `badges` and
`points` — no `id`, `created_at` or `updated_at` — whereas the lazy-read path
of `GET /user/{u}/progress` does stamp all three base fields.  This
contradicts the base shape the code's own `UserProgress(BaseDocument)` model
declares for the collection. -/
theorem progress_upsert_missing_base_fields :
    (award_badge ("alice") ("explorer") sysEmpty).1.db.user_progress =
      [⟨none, none, none, "alice", some ["explorer"], some 10, none, none, none⟩] ∧
    (get_user_progress ("bob") sysEmpty).2.id = some ("uuid-0") ∧
    (get_user_progress ("bob") sysEmpty).2.created_at = some 0 ∧
    (get_user_progress ("bob") sysEmpty).2.updated_at = some 0 :=
  ⟨rfl, rfl, rfl, rfl⟩

/-- C9 counterexample: a *successful* `POST /speech/upload` exits with the
staged temporary file still present (its path is persisted as the song's
`audio_path` and no code path deletes it), refuting deletion on every exit
path. -/
theorem speech_tempfile_counterexample :
    (upload_folk_song (fun _ => some []) ⟨"song.wav", "", "", "hindi"⟩ sysEmpty).2 =
      .ok ⟨"uuid-1", songTranscription ("song.wav"), "", "", "success"⟩ ∧
    (upload_folk_song (fun _ => some []) ⟨"song.wav", "", "", "hindi"⟩ sysEmpty).1.files =
      ["/tmp/parampara_uploads/uuid-0_song.wav"] :=
  ⟨rfl, rfl⟩

/-- C9 (amended): `POST /ocr/upload` deletes the staged temporary file on its
success path only — when the handler fails after staging (embedding raises),
the file is left behind — and `POST /speech/upload` never deletes the staged
file on any exit path, success or failure. -/
theorem tempfile_cleanup_amended
    (embedOk embedFail : String → Option (List ℚ)) (em : List ℚ)
    (formO : OcrForm) (formS : SpeechForm) (s : Sys)
    (hok : embedOk (ocrExtractedText formO.filename) = some em)
    (hfail : embedFail (ocrExtractedText formO.filename) = none)
    (hfresh : uploadsDir ++ "/" ++ freshId s.nextId ++ "_" ++ formO.filename ∉ s.files) :
    (upload_document_ocr embedOk formO s).1.files = s.files ∧
    (upload_document_ocr embedFail formO s).1.files =
      s.files ++ [uploadsDir ++ "/" ++ freshId s.nextId ++ "_" ++ formO.filename] ∧
    (∀ e : String → Option (List ℚ),
      (upload_folk_song e formS s).1.files =
        s.files ++ [uploadsDir ++ "/" ++ freshId s.nextId ++ "_" ++ formS.filename]) := by
  refine ⟨?_, ?_, ?_⟩
  · simp only [upload_document_ocr, save_upload_file, hok]
    rw [List.erase_append_right _ hfresh, List.erase_cons_head, List.append_nil]
  · simp [upload_document_ocr, save_upload_file, hfail]
  · intro e
    cases he : e (songTranscription formS.filename) with
    | none => simp [upload_folk_song, save_upload_file, he]
    | some em' => simp [upload_folk_song, save_upload_file, he]

/-- C9 witness for the amended theorem: one succeeding and one failing
embedding on the empty state. -/
theorem tempfile_cleanup_amended_witness :
    (upload_document_ocr (fun _ => some []) ⟨"m.txt", "devanagari", "hindi"⟩ sysEmpty).1.files =
      sysEmpty.files ∧
    (upload_document_ocr (fun _ => none) ⟨"m.txt", "devanagari", "hindi"⟩ sysEmpty).1.files =
      sysEmpty.files ++ ["/tmp/parampara_uploads" ++ "/" ++ freshId sysEmpty.nextId ++ "_" ++ "m.txt"] ∧
    (∀ e : String → Option (List ℚ),
      (upload_folk_song e ⟨"song.wav", "", "", "hindi"⟩ sysEmpty).1.files =
        sysEmpty.files ++ ["/tmp/parampara_uploads" ++ "/" ++ freshId sysEmpty.nextId ++ "_" ++ "song.wav"]) :=
  tempfile_cleanup_amended (fun _ => some []) (fun _ => none) []
    ⟨"m.txt", "devanagari", "hindi"⟩ ⟨"song.wav", "", "", "hindi"⟩ sysEmpty
    rfl rfl (by simp [sysEmpty])

/-- C10: the response body of `POST /user/{u}/badge/{b}` always reports the
literal per-call increment `10` as `points`, independent of the user's stored
progress state — never the accumulated total. -/
theorem award_badge_response_constant (u b : String) (s s2 : Sys) :
    (award_badge u b s).2 = { message := "Badge '" ++ b ++ "' awarded!", points := 10 } ∧
    (award_badge u b s).2 = (award_badge u b s2).2 :=
  ⟨rfl, rfl⟩

theorem award_badge_find_found (u b : String) (s : Sys) (p : UserProgressRecord)
    (h : s.db.user_progress.find? (fun q => q.user_id == u) = some p) :
    (award_badge u b s).1.db.user_progress.find? (fun q => q.user_id == u) =
      some { p with badges := some (mongoAddToSet b (p.badges.getD []))
                    points := some (p.points.getD 0 + 10) } := by
  simp only [award_badge, h, Option.isSome_some, if_true]
  rw [find?_updateFirst (fun q => q.user_id == u)
    (fun p => { p with badges := some (mongoAddToSet b (p.badges.getD []))
                       points := some (p.points.getD 0 + 10) })
    s.db.user_progress (fun x hx => hx), h]
  rfl

theorem award_badge_find_missing (u b : String) (s : Sys)
    (h : s.db.user_progress.find? (fun q => q.user_id == u) = none) :
    (award_badge u b s).1.db.user_progress.find? (fun q => q.user_id == u) =
      some ⟨none, none, none, u, some [b], some 10, none, none, none⟩ := by
  simp only [award_badge, h, Option.isSome_none, Bool.false_eq_true, if_false]
  rw [List.find?_append, h]
  rw [List.find?_cons_of_pos _ (by simp)]
  rfl

/-- C4: every badge award adds exactly 10 to the stored points counter (so
points are monotonically non-decreasing and a repeated award of the same
badge still adds points), while the badge list behaves as a set: membership
after the award is membership before plus the awarded badge, and a duplicate
award leaves the badge list unchanged. -/
theorem award_badge_points_and_badge_set (u b : String) (s : Sys) :
    userPoints (award_badge u b s).1 u = userPoints s u + 10 ∧
    (∀ x, x ∈ userBadges (award_badge u b s).1 u ↔ (x ∈ userBadges s u ∨ x = b)) ∧
    (b ∈ userBadges s u → userBadges (award_badge u b s).1 u = userBadges s u) := by
  cases h : s.db.user_progress.find? (fun q => q.user_id == u) with
  | none =>
    have hfind := award_badge_find_missing u b s h
    refine ⟨?_, ?_, ?_⟩
    · simp [userPoints, hfind, h]
    · intro x
      simp [userBadges, hfind, h]
    · intro hb
      simp [userBadges, h] at hb
  | some p =>
    have hfind := award_badge_find_found u b s p h
    refine ⟨?_, ?_, ?_⟩
    · simp [userPoints, hfind, h]
    · intro x
      simp [userBadges, hfind, h, mem_mongoAddToSet]
    · intro hb
      have hmem : b ∈ p.badges.getD [] := by simpa [userBadges, h] using hb
      simp [userBadges, hfind, h, mongoAddToSet, hmem]

theorem pairwise_of_all {R : α → α → Prop} (h : ∀ a b, R a b) :
    ∀ l : List α, l.Pairwise R
  | [] => List.Pairwise.nil
  | x :: xs => List.Pairwise.cons (fun b _ => h x b) (pairwise_of_all h xs)

theorem semantic_items_sorted (docs : List CulturalDocument)
    (songs : List FolkSong) :
    sortDesc (fun it => it.score.getD 0)
        (docs.map docSearchItem ++ songs.map songSearchItem) =
      docs.map docSearchItem ++ songs.map songSearchItem := by
  apply sortDesc_of_sorted
  rw [List.pairwise_append]
  refine ⟨?_, ?_, ?_⟩
  · rw [List.pairwise_map]
    exact pairwise_of_all (fun a b => le_refl ((4 : ℚ)/5)) docs
  · rw [List.pairwise_map]
    exact pairwise_of_all (fun a b => le_refl ((7 : ℚ)/10)) songs
  · intro a ha b hb
    rcases List.mem_map.mp ha with ⟨d, _, rfl⟩
    rcases List.mem_map.mp hb with ⟨f, _, rfl⟩
    show (7 : ℚ)/10 ≤ 4/5
    norm_num

/-- C5: a semantic `POST /search` fetches up to `limit` records from each of
the two collections with no filtering, scores every document with the
constant 0.8 and every folk song with the constant 0.7, and returns them
sorted by that constant in descending order — all documents before all folk
songs.  The computed query embedding plays no role: two providers returning
different embeddings yield identical output, and the listing is bounded by
`limit` whenever `limit` is nonzero. -/
theorem semantic_search_fixed_scores
    (embed embed2 : String → Option (List ℚ)) (qe qe2 : List ℚ)
    (req : SearchRequest) (s : Sys)
    (hst : req.search_type = "semantic")
    (h1 : embed req.query = some qe) (h2 : embed2 req.query = some qe2) :
    search_content embed req s = .ok
      { query := req.query, search_type := req.search_type,
        results := (mongoLimit req.limit s.db.cultural_documents).map docSearchItem ++
                   (mongoLimit req.limit s.db.folk_songs).map songSearchItem,
        total_found := ((mongoLimit req.limit s.db.cultural_documents).map docSearchItem ++
                        (mongoLimit req.limit s.db.folk_songs).map songSearchItem).length } ∧
    (∀ it ∈ (mongoLimit req.limit s.db.cultural_documents).map docSearchItem,
        it.score = some (4/5)) ∧
    (∀ it ∈ (mongoLimit req.limit s.db.folk_songs).map songSearchItem,
        it.score = some (7/10)) ∧
    search_content embed2 req s = search_content embed req s ∧
    (req.limit ≠ 0 →
      ((mongoLimit req.limit s.db.cultural_documents).map docSearchItem).length ≤
          req.limit.natAbs ∧
      ((mongoLimit req.limit s.db.folk_songs).map songSearchItem).length ≤
          req.limit.natAbs) := by
  have hbeq : (req.search_type == "semantic") = true := by rw [hst]; rfl
  have hsort := semantic_items_sorted (mongoLimit req.limit s.db.cultural_documents)
    (mongoLimit req.limit s.db.folk_songs)
  refine ⟨?_, ?_, ?_, ?_, ?_⟩
  · simp only [search_content, hbeq, if_true, h1]
    rw [hsort]
  · intro it hit
    rcases List.mem_map.mp hit with ⟨d, _, rfl⟩
    rfl
  · intro it hit
    rcases List.mem_map.mp hit with ⟨f, _, rfl⟩
    rfl
  · simp only [search_content, hbeq, if_true, h1, h2]
  · intro hne
    constructor
    · rw [List.length_map]
      unfold mongoLimit
      rw [if_neg hne, List.length_take]
      exact inf_le_left
    · rw [List.length_map]
      unfold mongoLimit
      rw [if_neg hne, List.length_take]
      exact inf_le_left

/-- C5 witness: concrete state with one document and one folk song and two
embedding oracles returning different vectors. -/
theorem semantic_search_fixed_scores_witness :
    search_content (fun _ => some [1]) ⟨"wisdom", "semantic", none, 10⟩ sys1 = .ok
      { query := "wisdom", search_type := "semantic",
        results := (mongoLimit 10 sys1.db.cultural_documents).map docSearchItem ++
                   (mongoLimit 10 sys1.db.folk_songs).map songSearchItem,
        total_found := ((mongoLimit 10 sys1.db.cultural_documents).map docSearchItem ++
                        (mongoLimit 10 sys1.db.folk_songs).map songSearchItem).length } ∧
    (∀ it ∈ (mongoLimit 10 sys1.db.cultural_documents).map docSearchItem,
        it.score = some (4/5)) ∧
    (∀ it ∈ (mongoLimit 10 sys1.db.folk_songs).map songSearchItem,
        it.score = some (7/10)) ∧
    search_content (fun _ => some [2]) ⟨"wisdom", "semantic", none, 10⟩ sys1 =
      search_content (fun _ => some [1]) ⟨"wisdom", "semantic", none, 10⟩ sys1 ∧
    ((10 : Int) ≠ 0 →
      ((mongoLimit 10 sys1.db.cultural_documents).map docSearchItem).length ≤
          (10 : Int).natAbs ∧
      ((mongoLimit 10 sys1.db.folk_songs).map songSearchItem).length ≤
          (10 : Int).natAbs) :=
  semantic_search_fixed_scores (fun _ => some [1]) (fun _ => some [2]) [1] [2]
    ⟨"wisdom", "semantic", none, 10⟩ sys1 rfl rfl rfl

/-- C6 counterexample: the query is passed to MongoDB as a regex, not as a
literal substring.  For the query `"a.c"` the stored document titled `"abc"`
is returned (the `.` matches `b`), yet none of its title, original text or
description contains `"a.c"` case-insensitively as a substring — refuting the
claim as stated. -/
theorem keyword_search_regex_counterexample :
    search_content (fun _ => some []) ⟨"a.c", "keyword", none, 10⟩ sys1 =
      .ok ⟨"a.c", "keyword", [kwSearchItem sampleDoc ("xyz")], 1⟩ ∧
    specKeywordMatch ("a.c") sampleDoc = false :=
  ⟨rfl, rfl⟩

/-- C6 (amended): the keyword branch filters by the query interpreted as a
case-insensitive regular expression.  For queries containing no regex
metacharacter this coincides with case-insensitive substring containment, and
then every returned result comes from a stored document whose title, original
text or description case-insensitively contains the query as a substring. -/
theorem keyword_search_substring_amended
    (embed : String → Option (List ℚ)) (req : SearchRequest) (s : Sys)
    (resp : SearchResponse)
    (hmeta : ∀ c ∈ req.query.data, isRegexMeta c = false)
    (hst : req.search_type = "keyword")
    (hok : search_content embed req s = .ok resp) :
    (∀ d : CulturalDocument, keywordPred req.query d = specKeywordMatch req.query d) ∧
    (∀ it ∈ resp.results, ∃ d ∈ s.db.cultural_documents,
      it.id = d.id ∧ it.title = d.title ∧ specKeywordMatch req.query d = true) := by
  refine ⟨fun d => keywordPred_eq_spec req.query hmeta d, ?_⟩
  have hbeq : (req.search_type == "semantic") = false := by rw [hst]; rfl
  simp only [search_content, hbeq, Bool.false_eq_true, if_false] at hok
  cases hkw : kwItems (mongoLimit req.limit
      (List.filter (keywordPred req.query) s.db.cultural_documents)) with
  | none =>
    rw [hkw] at hok
    cases hok
  | some results =>
    rw [hkw] at hok
    have hres : resp.results = results := by
      injection hok with hv
      rw [← hv]
    intro it hit
    rw [hres] at hit
    rcases kwItems_mem _ _ hkw it hit with ⟨d, hd, t, ht, rfl⟩
    have hd' : d ∈ List.filter (keywordPred req.query) s.db.cultural_documents :=
      mem_mongoLimit hd
    rcases List.mem_filter.mp hd' with ⟨hmem, hkp⟩
    refine ⟨d, hmem, rfl, rfl, ?_⟩
    rw [← keywordPred_eq_spec req.query hmeta d]
    exact hkp

/-- C6 witness for the amended theorem: the metacharacter-free query `"ab"`
on the one-document state. -/
theorem keyword_search_substring_amended_witness :
    (∀ d : CulturalDocument, keywordPred ("ab") d = specKeywordMatch ("ab") d) ∧
    (∀ it ∈ (SearchResponse.mk ("ab") "keyword" [kwSearchItem sampleDoc ("xyz")] 1).results,
      ∃ d ∈ sys1.db.cultural_documents,
        it.id = d.id ∧ it.title = d.title ∧ specKeywordMatch ("ab") d = true) :=
  keyword_search_substring_amended (fun _ => some []) ⟨"ab", "keyword", none, 10⟩
    sys1 ⟨"ab", "keyword", [kwSearchItem sampleDoc ("xyz")], 1⟩
    (by decide) rfl rfl

theorem upload_document_ocr_ok_eq (embed : String → Option (List ℚ))
    (form : OcrForm) (s : Sys) (em : List ℚ)
    (he : embed (ocrExtractedText form.filename) = some em) :
    upload_document_ocr embed form s =
      ({ db := { s.db with cultural_documents := s.db.cultural_documents ++
           [{ id := freshId (s.nextId + 1), created_at := s.now, updated_at := s.now,
              title := form.filename, description := none,
              script_type := some form.script_type, language := form.language,
              original_text := some (ocrExtractedText form.filename),
              restored_text := none, translation := [], region := some ("Unknown"),
              time_period := none, restoration_confidence := none,
              embeddings := some em,
              tags := ["ocr", form.script_type, form.language] }] },
         files := (s.files ++
             [uploadsDir ++ "/" ++ freshId s.nextId ++ "_" ++ form.filename]).erase
           (uploadsDir ++ "/" ++ freshId s.nextId ++ "_" ++ form.filename),
         nextId := s.nextId + 1 + 1, now := s.now },
       .ok { document_id := freshId (s.nextId + 1),
             extracted_text := ocrExtractedText form.filename,
             script_type := form.script_type, language := form.language,
             status := "success" }) := by
  simp [upload_document_ocr, save_upload_file, he]

theorem mem_take100_append (l : List CulturalDocument) (x : CulturalDocument)
    (h : l.length < 100) : x.id ∈ ((l ++ [x]).take 100).map (fun d => d.id) := by
  have hle : (l ++ [x]).length ≤ 100 := by
    simp only [List.length_append, List.length_singleton]
    omega
  rw [List.take_of_length_le hle]
  simp

theorem generate_story_found_not_404 (prov : String → Option String)
    (req : StoryRequest) (s : Sys)
    (h : (s.db.cultural_documents.find? (fun d => d.id == req.document_id)).isSome) :
    (generate_story true prov req s).result ≠
      .err 500 "Story generation failed: 404: Document not found" := by
  cases hfind : s.db.cultural_documents.find? (fun d => d.id == req.document_id) with
  | none => rw [hfind] at h; cases h
  | some doc =>
    simp only [generate_story, hfind]
    cases hp : storyPromptFor doc req with
    | none =>
      simp only [hp]
      intro hcontra
      injection hcontra with h1 h2
      revert h2
      decide
    | some prompt =>
      simp only [hp]
      cases hprov : prov prompt with
      | none =>
        simp only [hprov]
        intro hcontra
        injection hcontra with h1 h2
        revert h2
        decide
      | some response =>
        simp only [hprov]
        intro hcontra
        cases hcontra

/-- C7 (amended): a successful `POST /ocr/upload` returns a `document_id`
that the `POST /story/generate` lookup finds (its `find_one` is `isSome` and
the handler can never answer with the unknown-document error for that id);
the id also appears in `GET /documents` *provided* the collection held fewer
than 100 documents before the upload, because that listing is capped at 100
records. -/
theorem ocr_upload_retrievable_amended (embed : String → Option (List ℚ))
    (form : OcrForm) (s : Sys) (em : List ℚ)
    (he : embed (ocrExtractedText form.filename) = some em) :
    ∃ resp : OcrResponse,
      (upload_document_ocr embed form s).2 = .ok resp ∧
      ((upload_document_ocr embed form s).1.db.cultural_documents.find?
          (fun d => d.id == resp.document_id)).isSome ∧
      (∀ (st tl : String) (prov : String → Option String),
        (generate_story true prov ⟨resp.document_id, st, tl⟩
            (upload_document_ocr embed form s).1).result ≠
          .err 500 "Story generation failed: 404: Document not found") ∧
      (s.db.cultural_documents.length < 100 →
        resp.document_id ∈
          (get_documents (upload_document_ocr embed form s).1).map (fun d => d.id)) := by
  have hred := upload_document_ocr_ok_eq embed form s em he
  have hfindSome : ((upload_document_ocr embed form s).1.db.cultural_documents.find?
      (fun d => d.id == freshId (s.nextId + 1))).isSome := by
    rw [hred]
    apply List.find?_isSome.mpr
    refine ⟨_, List.mem_append_right _ (List.mem_singleton_self _), ?_⟩
    simp
  refine ⟨{ document_id := freshId (s.nextId + 1),
            extracted_text := ocrExtractedText form.filename,
            script_type := form.script_type, language := form.language,
            status := "success" }, ?_, ?_, ?_, ?_⟩
  · rw [hred]
  · exact hfindSome
  · intro st tl prov
    exact generate_story_found_not_404 prov ⟨freshId (s.nextId + 1), st, tl⟩
      (upload_document_ocr embed form s).1 hfindSome
  · intro hlen
    rw [hred]
    simp only [get_documents]
    exact mem_take100_append _ _ hlen

/-- C7 witness for the amended theorem, on the empty state. -/
theorem ocr_upload_retrievable_amended_witness :
    ∃ resp : OcrResponse,
      (upload_document_ocr (fun _ => some []) ⟨"m.txt", "devanagari", "sanskrit"⟩ sysEmpty).2 =
        .ok resp ∧
      ((upload_document_ocr (fun _ => some []) ⟨"m.txt", "devanagari", "sanskrit"⟩
          sysEmpty).1.db.cultural_documents.find?
          (fun d => d.id == resp.document_id)).isSome ∧
      (∀ (st tl : String) (prov : String → Option String),
        (generate_story true prov ⟨resp.document_id, st, tl⟩
            (upload_document_ocr (fun _ => some []) ⟨"m.txt", "devanagari", "sanskrit"⟩
              sysEmpty).1).result ≠
          .err 500 "Story generation failed: 404: Document not found") ∧
      (sysEmpty.db.cultural_documents.length < 100 →
        resp.document_id ∈
          (get_documents (upload_document_ocr (fun _ => some [])
            ⟨"m.txt", "devanagari", "sanskrit"⟩ sysEmpty).1).map (fun d => d.id)) :=
  ocr_upload_retrievable_amended (fun _ => some []) ⟨"m.txt", "devanagari", "sanskrit"⟩
    sysEmpty [] rfl

/-- C7 counterexample: when the collection already holds 100 documents, a
fresh upload succeeds and `POST /story/generate` finds the new id, but
`GET /documents` (capped at `to_list(100)`) does not list it — refuting the
claim as stated. -/
theorem ocr_upload_cap_counterexample :
    (upload_document_ocr (fun _ => some []) ⟨"m.txt", "devanagari", "hindi"⟩ sys100).2 =
      .ok ⟨"uuid-1", ocrExtractedText ("m.txt"), "devanagari", "hindi", "success"⟩ ∧
    "uuid-1" ∉ (get_documents (upload_document_ocr (fun _ => some [])
      ⟨"m.txt", "devanagari", "hindi"⟩ sys100).1).map (fun d => d.id) := by
  refine ⟨rfl, ?_⟩
  decide
